import Mathlib

/-!
Verification of the peer session orchestrator in `src/hooks/useHumanChat.ts`.

The hook is a single-threaded, event-driven orchestrator.  We embed its
React-ref/state fields as a `HookState` record, its side effects
(`conn.send`, `channel.track`, `sendOfflineMessage`, `markMessageAsRead`,
`setIncomingDirectMessage`, …) as an explicit `Effect` list, and each
callback of the source as a function `HookState → … → HookState × List Effect`.
Oracle inputs that the environment supplies (current time, random suffix,
whether `connect`/`send` throws) are passed as explicit parameters.
-/

namespace HumanChat

/-- `ChatMode` from `types.ts`, as used by the hook. -/
inductive ChatMode
  | IDLE
  | SEARCHING
  | CONNECTED
  | DISCONNECTED
deriving DecidableEq

/-- Message sender tag: `'me' | 'stranger'`. -/
inductive Sender
  | me
  | stranger
deriving DecidableEq

/-- Message content kind: `'text' | 'image' | 'audio'`. -/
inductive MsgKind
  | text
  | image
  | audio
deriving DecidableEq

/-- Delivery status of a message: `'sent' | 'seen'`. -/
inductive DeliveryStatus
  | sent
  | seen
deriving DecidableEq

/-- User profile; the hook only reads `username` from it. -/
structure UserProfile where
  username : String
deriving DecidableEq

/-- A reaction attached to a message: `{emoji, sender}`. -/
structure Reaction where
  emoji : String
  sender : Sender
deriving DecidableEq

/-- The `Message` record of `types.ts` as the hook populates it.  Optional
fields that the source leaves `undefined` are `Option`s defaulting to
`none`. -/
structure Message where
  id : String
  text : Option String := none
  fileData : Option String := none
  type : MsgKind
  sender : Sender
  timestamp : Nat
  status : Option DeliveryStatus := none
  reactions : List Reaction := []
  isEdited : Bool := false
deriving DecidableEq

/-- Presence status published to the lobby: `'idle' | 'waiting' | 'busy'`. -/
inductive PresenceStatus
  | idle
  | waiting
  | busy
deriving DecidableEq

/-- One entry of the presence directory (`PresenceState` in `types.ts`):
`{peerId, status, timestamp, profile}`. -/
structure PresenceState where
  peerId : String
  status : PresenceStatus
  timestamp : Nat
  profile : UserProfile
deriving DecidableEq

/-- A PeerJS `DataConnection` as the hook observes it: the remote identity
(`conn.peer`), the transport `open` flag, and a numeric tag standing for
JavaScript object identity (the source compares `conn === mainConnRef.current`). -/
structure DataConnection where
  connId : Nat
  peer : String
  isOpen : Bool
deriving DecidableEq

/-- Connection metadata `{ type: 'random' | 'direct' }`. -/
inductive ConnType
  | random
  | direct
deriving DecidableEq

/-- The `PeerData` protocol frame union, one constructor per `type` tag
handled by `handleIncomingData`. -/
inductive PeerData
  | message (payload : String) (dataType : Option MsgKind) (id : Option String)
  | seen (messageId : String)
  | typing (payload : Bool)
  | recording (payload : Bool)
  | profile (payload : UserProfile)
  | friend_request (payload : UserProfile)
  | friend_accept (payload : UserProfile)
  | reaction (payload : String) (messageId : Option String)
  | edit_message (payload : String) (messageId : Option String)
  | vanish_mode (payload : Bool)
  | disconnect
deriving DecidableEq

/-- A stored friend (`{id, profile, addedAt, lastSeen}`). -/
structure Friend where
  id : String
  profile : UserProfile
  addedAt : Nat
  lastSeen : Nat
deriving DecidableEq

/-- A pending friend request (`{profile, peerId}`). -/
structure FriendRequest where
  profile : UserProfile
  peerId : String
deriving DecidableEq

/-- Direct-status event kinds surfaced to the UI (`typing`/`recording`). -/
inductive StatusKind
  | typing
  | recording
deriving DecidableEq

/-- A row of the `direct_messages` durable store as delivered to
`processOfflineMessage` (by the poll or the realtime insert subscription). -/
structure OfflineRow where
  message_id : String
  content : Option String := none
  file_data : Option String := none
  type : MsgKind
  sender_id : String
  created_at : Nat
deriving DecidableEq

/-- Observable side effects of the hook.  `surfaceDirect` records a
`setIncomingDirectMessage` publication and `surfaceMainAppend` an append to
the main conversation list: each is one conversation entry surfaced to the
consuming layer. -/
inductive Effect
  | sendFrame (connId : Nat) (frame : PeerData)
  | closeConn (connId : Nat)
  | trackPresence (peerId : String) (status : PresenceStatus) (timestamp : Nat)
      (profile : UserProfile)
  | offlineSend (senderId : String) (receiverId : String) (message : Message)
  | markRead (messageId : String)
  | surfaceDirect (peerId : String) (message : Message)
  | surfaceMainAppend (message : Message)
  | surfaceReaction (peerId : String) (messageId : String) (emoji : String)
  | surfaceDirectStatus (peerId : String) (kind : StatusKind) (value : Bool)
  | saveRecent (peerId : String) (profile : UserProfile)
  | connectAttempt (targetPeerId : String) (meta : ConnType)
deriving DecidableEq

/-- All React state and refs of `useHumanChat` that the verified behaviour
reads or writes.  `channelReady` stands for `channelRef.current !== null`;
`myPeerId` merges `myPeerId` state and `myPeerIdRef`.  The two
`…InFlight` fields are ghost instrumentation for the matchmaking
in-flight invariant: `attemptsInFlight` counts outbound matchmaking
attempts that have begun (the in-flight flag was set and `connect` called)
and not yet reached a terminal outcome (installed as main, connect
returned nothing, connect threw, attempt timeout cleared it, connection
error, or cleanup); `peakAttemptsInFlight` records the largest value
`attemptsInFlight` ever took, including mid-callback. -/
structure HookState where
  messages : List Message
  status : ChatMode
  partnerTyping : Bool
  partnerRecording : Bool
  partnerProfile : Option UserProfile
  remoteVanishMode : Option Bool
  partnerPeerId : Option String
  onlineUsers : List PresenceState
  myPeerId : Option String
  error : Option String
  friends : List Friend
  friendRequests : List FriendRequest
  activeDirectConnections : List String
  mainConn : Option DataConnection
  directConns : List (String × DataConnection)
  isMatchmaker : Bool
  processedMessageIds : List String
  userProfile : UserProfile
  channelReady : Bool
  attemptsInFlight : Nat
  peakAttemptsInFlight : Nat
deriving DecidableEq

/-- The hook's initial state (all `useState`/`useRef` initialisers). -/
def initialState (p : UserProfile) : HookState where
  messages := []
  status := ChatMode.IDLE
  partnerTyping := false
  partnerRecording := false
  partnerProfile := none
  remoteVanishMode := none
  partnerPeerId := none
  onlineUsers := []
  myPeerId := none
  error := none
  friends := []
  friendRequests := []
  activeDirectConnections := []
  mainConn := none
  directConns := []
  isMatchmaker := false
  processedMessageIds := []
  userProfile := p
  channelReady := false
  attemptsInFlight := 0
  peakAttemptsInFlight := 0

/-- Object identity test `conn === mainConnRef.current`, via the numeric tag. -/
def isMainConn (s : HookState) (c : DataConnection) : Bool :=
  match s.mainConn with
  | some mc => mc.connId == c.connId
  | none => false

/-- `directConnsRef.current.get(peerId)`. -/
def lookupDirect (m : List (String × DataConnection)) (k : String) :
    Option DataConnection :=
  (m.find? (fun p => p.1 == k)).map (fun p => p.2)

/-- `directConnsRef.current.set(peerId, conn)`: insert or replace by key. -/
def insertDirect (m : List (String × DataConnection)) (k : String)
    (c : DataConnection) : List (String × DataConnection) :=
  (k, c) :: m.filter (fun p => p.1 != k)

/-- Add to the `activeDirectConnections` set (`new Set(prev).add(peer)`). -/
def addActive (l : List String) (x : String) : List String :=
  if l.contains x then l else l ++ [x]

/-- Clearing `isMatchmakerRef.current` at one of the terminal outcomes of a
matchmaking attempt, with ghost accounting: if an attempt was pending
(flag set) it is now terminated, so the in-flight count drops by one.
Setting the flag to `false` when it already is `false` changes nothing. -/
def clearInFlight (s : HookState) : HookState :=
  if s.isMatchmaker then
    { s with isMatchmaker := false, attemptsInFlight := s.attemptsInFlight - 1 }
  else s

/-- Modelled from the spec: `INITIAL_GREETING` is imported from
`../constants`, which is not among the provided sources.  §4.3 says the
local greeting message is seeded on entering `Connected`; the `profile`
handler rewrites the message whose id is `init-1`, so the greeting carries
that id.  No claim depends on its other fields. -/
def INITIAL_GREETING : Message :=
  { id := "init-1"
    text := some "You are now chatting with a stranger. Say hello!"
    type := MsgKind.text
    sender := Sender.stranger
    timestamp := 0 }

/-- `saveFriend` (lines 239-251): no-op when the peer is already a friend;
otherwise prepends the new friend and drops any pending request from that
peer.  (The `localStorage` write is an external effect we do not track.) -/
def saveFriend (s : HookState) (profile : UserProfile) (peerId : String)
    (now : Nat) : HookState :=
  if s.friends.any (fun f => f.id == peerId) then s
  else
    { s with
      friends := { id := peerId, profile := profile, addedAt := now,
                   lastSeen := now } :: s.friends
      friendRequests := s.friendRequests.filter (fun r => r.peerId != peerId) }

/-- `cleanupMain` (lines 276-293): notify and close the main connection,
clear the in-flight flag and all partner-related state, republish presence
`idle` (when the lobby channel and local id exist) and set status
`DISCONNECTED`. -/
def cleanupMain (s : HookState) (now : Nat) : HookState × List Effect :=
  let sendEff : List Effect :=
    match s.mainConn with
    | some c => [Effect.sendFrame c.connId PeerData.disconnect,
                 Effect.closeConn c.connId]
    | none => []
  let trackEff : List Effect :=
    match s.myPeerId with
    | some pid =>
        if s.channelReady then
          [Effect.trackPresence pid PresenceStatus.idle now s.userProfile]
        else []
    | none => []
  let s₁ := clearInFlight
    { s with mainConn := none, partnerTyping := false,
             partnerRecording := false, partnerPeerId := none,
             partnerProfile := none, remoteVanishMode := none }
  ({ s₁ with status := ChatMode.DISCONNECTED }, sendEff ++ trackEff)

/-- `handleIncomingData` (lines 295-367): the inbound frame dispatcher.
`now` stands for `Date.now()`. -/
def handleIncomingData (s : HookState) (d : PeerData) (c : DataConnection)
    (now : Nat) : HookState × List Effect :=
  let isMain := isMainConn s c
  match d with
  | PeerData.message payload dataType id =>
      let msgId := id.getD (toString now)
      let kind := dataType.getD MsgKind.text
      let newMessage : Message :=
        { id := msgId
          sender := Sender.stranger
          timestamp := now
          type := kind
          reactions := []
          text := if kind != MsgKind.image && kind != MsgKind.audio
                  then some payload else none
          fileData := if kind == MsgKind.image || kind == MsgKind.audio
                      then some payload else none
          status := some DeliveryStatus.sent }
      if isMain then
        ({ s with messages := s.messages ++ [newMessage],
                  partnerTyping := false },
         [Effect.surfaceMainAppend newMessage,
          Effect.sendFrame c.connId (PeerData.seen msgId)])
      else
        (s, [Effect.surfaceDirect c.peer newMessage,
             Effect.sendFrame c.connId (PeerData.seen msgId)])
  | PeerData.seen messageId =>
      if isMain then
        ({ s with messages := s.messages.map (fun m =>
            if m.id == messageId then { m with status := some DeliveryStatus.seen }
            else m) }, [])
      else (s, [])
  | PeerData.typing payload =>
      if isMain then ({ s with partnerTyping := payload }, [])
      else (s, [Effect.surfaceDirectStatus c.peer StatusKind.typing payload])
  | PeerData.recording payload =>
      if isMain then ({ s with partnerRecording := payload }, [])
      else (s, [Effect.surfaceDirectStatus c.peer StatusKind.recording payload])
  | PeerData.profile payload =>
      if isMain then
        ({ s with partnerProfile := some payload,
                  messages := s.messages.map (fun m =>
                    if m.id == "init-1" then
                      { m with text := some ("Connected with " ++
                          payload.username ++ ". Say hello!") }
                    else m) },
         [Effect.saveRecent c.peer payload])
      else (s, [Effect.saveRecent c.peer payload])
  | PeerData.friend_request payload =>
      if s.friends.any (fun f => f.id == c.peer) then (s, [])
      else if s.friendRequests.any (fun r => r.peerId == c.peer) then (s, [])
      else ({ s with friendRequests :=
                s.friendRequests ++ [{ profile := payload, peerId := c.peer }] },
            [])
  | PeerData.friend_accept payload => (saveFriend s payload c.peer now, [])
  | PeerData.disconnect =>
      if isMain then
        ({ s with status := ChatMode.DISCONNECTED, messages := [],
                  partnerPeerId := none, mainConn := none },
         match s.mainConn with
         | some mc => [Effect.closeConn mc.connId]
         | none => [])
      else
        ({ s with directConns := s.directConns.filter (fun p => p.1 != c.peer),
                  activeDirectConnections :=
                    s.activeDirectConnections.filter (fun x => x != c.peer) },
         [])
  | PeerData.vanish_mode payload =>
      if isMain then ({ s with remoteVanishMode := some payload }, [])
      else (s, [])
  | PeerData.reaction payload messageId =>
      match messageId with
      | some mid =>
          let s₁ :=
            if isMain then
              { s with messages := s.messages.map (fun m =>
                  if m.id == mid then
                    { m with reactions := m.reactions ++
                        [{ emoji := payload, sender := Sender.stranger }] }
                  else m) }
            else s
          (s₁, [Effect.surfaceReaction c.peer mid payload])
      | none => (s, [])
  | PeerData.edit_message payload messageId =>
      if isMain then
        ({ s with messages := s.messages.map (fun m =>
            if m.sender == Sender.stranger && m.type == MsgKind.text &&
               (messageId.isNone || messageId == some m.id)
            then { m with text := some payload, isEdited := true }
            else m) }, [])
      else (s, [])

/-- `processOfflineMessage` (lines 111-129): drop rows whose id is in the
processed set, otherwise record the id, surface the reconstructed message
as a direct-message event and mark it read in the store. -/
def processOfflineMessage (s : HookState) (msg : OfflineRow) :
    HookState × List Effect :=
  if s.processedMessageIds.contains msg.message_id then (s, [])
  else
    let reconstructed : Message :=
      { id := msg.message_id
        text := msg.content
        fileData := msg.file_data
        type := msg.type
        sender := Sender.stranger
        timestamp := msg.created_at
        status := some DeliveryStatus.sent }
    ({ s with processedMessageIds := s.processedMessageIds ++ [msg.message_id] },
     [Effect.surfaceDirect msg.sender_id reconstructed,
      Effect.markRead msg.message_id])

/-- `setupConnection` (lines 369-380, the synchronous part): install the
connection as main (random) — which per the source clears the in-flight
flag and republishes presence `busy` — or register it in the direct map
and the active set (direct). -/
def setupConnection (s : HookState) (c : DataConnection) (meta : ConnType)
    (now : Nat) : HookState × List Effect :=
  match meta with
  | ConnType.random =>
      let eff : List Effect :=
        match s.myPeerId with
        | some pid =>
            if s.channelReady then
              [Effect.trackPresence pid PresenceStatus.busy now s.userProfile]
            else []
        | none => []
      (clearInFlight { s with mainConn := some c, partnerPeerId := some c.peer },
       eff)
  | ConnType.direct =>
      ({ s with directConns := insertDirect s.directConns c.peer c,
                activeDirectConnections :=
                  addActive s.activeDirectConnections c.peer },
       [])

/-- `conn.on('open')` (lines 382-389): the transport marks the connection
open; if it is the main connection, enter `CONNECTED` and seed the
greeting; in any case send the local profile. -/
def handleConnOpen (s : HookState) (c : DataConnection) : HookState × List Effect :=
  let s₀ :=
    { s with
      mainConn := s.mainConn.map (fun mc =>
        if mc.connId == c.connId then { mc with isOpen := true } else mc)
      directConns := s.directConns.map (fun p =>
        if p.2.connId == c.connId then (p.1, { p.2 with isOpen := true }) else p) }
  let s₁ :=
    if isMainConn s₀ c then
      { s₀ with status := ChatMode.CONNECTED, messages := [INITIAL_GREETING],
                error := none }
    else s₀
  (s₁, [Effect.sendFrame c.connId (PeerData.profile s.userProfile)])

/-- `conn.on('close')` (lines 393-402).  The source reads `status` from the
enclosing closure; we model it as the current status (see §5 of the spec:
single-threaded ownership). -/
def handleConnClose (s : HookState) (c : DataConnection) : HookState :=
  if isMainConn s c && s.status == ChatMode.CONNECTED then
    { s with status := ChatMode.DISCONNECTED, messages := [],
             partnerPeerId := none }
  else
    { s with directConns := s.directConns.filter (fun p => p.1 != c.peer),
             activeDirectConnections :=
               s.activeDirectConnections.filter (fun x => x != c.peer) }

/-- `conn.on('error')` (lines 404-409): while searching, a failed main
attempt clears the in-flight flag and the main slot (a terminal outcome). -/
def handleConnError (s : HookState) (c : DataConnection) : HookState :=
  if isMainConn s c && s.status == ChatMode.SEARCHING then
    clearInFlight { s with mainConn := none }
  else s

/-- Stable insertion into a list already sorted ascending by `timestamp`.
Together with `sortByTimestamp` this embeds the stable ascending
`.sort((a, b) => a.timestamp - b.timestamp)` of the matchmaking tick. -/
def insertByTimestamp (u : PresenceState) :
    List PresenceState → List PresenceState
  | [] => [u]
  | v :: vs =>
      if u.timestamp ≤ v.timestamp then u :: v :: vs
      else v :: insertByTimestamp u vs

/-- Stable sort ascending by `timestamp` (the JS `Array.prototype.sort` with
comparator `a.timestamp - b.timestamp`; stable per ES2019). -/
def sortByTimestamp : List PresenceState → List PresenceState
  | [] => []
  | u :: us => insertByTimestamp u (sortByTimestamp us)

/-- The `waiters` list of the matchmaking tick (lines 202-204): presence
entries with status `waiting` and identity different from self, sorted
ascending by timestamp. -/
def candidateWaiters (onlineUsers : List PresenceState) (myPeerId : String) :
    List PresenceState :=
  sortByTimestamp (onlineUsers.filter (fun u =>
    u.status == PresenceStatus.waiting && u.peerId != myPeerId))

/-- Result of `peerRef.current?.connect(...)` in the tick, supplied by the
environment: `failure` is a falsy return, `threw` an exception, `success`
a connection object. -/
inductive ConnectOutcome
  | failure
  | threw
  | success (c : DataConnection)
deriving DecidableEq

/-- One firing of the matchmaking scan interval (lines 196-222).  The
interval only exists while the outer effect guard holds (status
`SEARCHING`, an id and a lobby channel, no in-flight flag, no main
connection); the inner callback re-checks status, flag and main slot.
When a candidate exists the in-flight flag is set (ghost: one attempt
begins) before `connect` is called; every branch then reaches a terminal
outcome within the same callback: installation as main via
`setupConnection`, a falsy return, or a throw. -/
def matchTick (s : HookState) (outcome : ConnectOutcome) (now : Nat) :
    HookState × List Effect :=
  if s.status != ChatMode.SEARCHING || !s.channelReady || s.isMatchmaker ||
     s.mainConn.isSome then (s, [])
  else
    match s.myPeerId with
    | none => (s, [])
    | some pid =>
        match candidateWaiters s.onlineUsers pid with
        | [] => (s, [])
        | target :: _ =>
            let s₁ :=
              { s with isMatchmaker := true,
                       attemptsInFlight := s.attemptsInFlight + 1,
                       peakAttemptsInFlight :=
                         max s.peakAttemptsInFlight (s.attemptsInFlight + 1) }
            match outcome with
            | ConnectOutcome.failure =>
                (clearInFlight s₁,
                 [Effect.connectAttempt target.peerId ConnType.random])
            | ConnectOutcome.threw =>
                (clearInFlight s₁,
                 [Effect.connectAttempt target.peerId ConnType.random])
            | ConnectOutcome.success c =>
                let r := setupConnection s₁ c ConnType.random now
                (r.1, Effect.connectAttempt target.peerId ConnType.random :: r.2)

/-- The 5-second matchmaking attempt timeout (lines 213-218): clears the
flag and the main slot only when the flag is still set and the main
connection is absent or not yet open. -/
def matchTimeout (s : HookState) : HookState :=
  if s.isMatchmaker &&
     (match s.mainConn with
      | none => true
      | some mc => !mc.isOpen) then
    clearInFlight { s with mainConn := none }
  else s

/-- The `connect` user action (lines 414-421). -/
def connectAction (s : HookState) (now : Nat) : HookState × List Effect :=
  match s.myPeerId with
  | some pid =>
      if s.channelReady then
        ({ s with status := ChatMode.SEARCHING, messages := [], error := none },
         [Effect.trackPresence pid PresenceStatus.waiting now s.userProfile])
      else ({ s with error := some "Connection lost. Please refresh." }, [])
  | none => ({ s with error := some "Connection lost. Please refresh." }, [])

/-- The `disconnect` user action (line 423): `cleanupMain` then clear the
conversation. -/
def disconnectAction (s : HookState) (now : Nat) : HookState × List Effect :=
  let r := cleanupMain s now
  ({ r.1 with messages := [] }, r.2)

/-- `sendMessage` (lines 425-431): only acts when the main connection
exists and is open; `now`/`rand` stand for `Date.now()` and
`Math.random()` making up the fresh id. -/
def sendMessage (s : HookState) (text : String) (now : Nat) (rand : String) :
    HookState × List Effect :=
  match s.mainConn with
  | some c =>
      if c.isOpen then
        let id := toString now ++ rand
        ({ s with messages := s.messages ++
            [{ id := id, text := some text, type := MsgKind.text,
               sender := Sender.me, timestamp := now, reactions := [],
               status := some DeliveryStatus.sent }] },
         [Effect.sendFrame c.connId
            (PeerData.message text (some MsgKind.text) (some id))])
      else (s, [])
  | none => (s, [])

/-- `sendImage` (lines 433-439). -/
def sendImage (s : HookState) (b64 : String) (now : Nat) (rand : String) :
    HookState × List Effect :=
  match s.mainConn with
  | some c =>
      if c.isOpen then
        let id := toString now ++ rand
        ({ s with messages := s.messages ++
            [{ id := id, fileData := some b64, type := MsgKind.image,
               sender := Sender.me, timestamp := now, reactions := [],
               status := some DeliveryStatus.sent }] },
         [Effect.sendFrame c.connId
            (PeerData.message b64 (some MsgKind.image) (some id))])
      else (s, [])
  | none => (s, [])

/-- `sendAudio` (lines 441-447). -/
def sendAudio (s : HookState) (b64 : String) (now : Nat) (rand : String) :
    HookState × List Effect :=
  match s.mainConn with
  | some c =>
      if c.isOpen then
        let id := toString now ++ rand
        ({ s with messages := s.messages ++
            [{ id := id, fileData := some b64, type := MsgKind.audio,
               sender := Sender.me, timestamp := now, reactions := [],
               status := some DeliveryStatus.sent }] },
         [Effect.sendFrame c.connId
            (PeerData.message b64 (some MsgKind.audio) (some id))])
      else (s, [])
  | none => (s, [])

/-- `sendDirectMessage` (lines 465-491).  `sendThrows` tells whether the
live `conn.send` raises.  The state is not modified; the function's
behaviour is its effect list: a live `sendFrame` is attempted only when
the target is in the presence list and an open direct connection exists,
and the durable-store fallback `offlineSend` fires when the live path was
unavailable or failed — but only if the local id exists. -/
def sendDirectMessage (s : HookState) (peerId : String) (text : String)
    (id : Option String) (now : Nat) (sendThrows : Bool) : List Effect :=
  let msgId := id.getD (toString now)
  let isOnline := s.onlineUsers.any (fun u => u.peerId == peerId)
  let liveEff : List Effect :=
    match lookupDirect s.directConns peerId with
    | some c =>
        if isOnline && c.isOpen then
          [Effect.sendFrame c.connId
             (PeerData.message text (some MsgKind.text) (some msgId))]
        else []
    | none => []
  let sentViaP2P := !liveEff.isEmpty && !sendThrows
  let dbEff : List Effect :=
    if !sentViaP2P then
      match s.myPeerId with
      | some myId =>
          [Effect.offlineSend myId peerId
            { id := msgId, text := some text, type := MsgKind.text,
              sender := Sender.me, timestamp := now }]
      | none => []
    else []
  liveEff ++ dbEff

/-- `sendDirectImage` (lines 493-504): same two-path logic with an image
payload. -/
def sendDirectImage (s : HookState) (peerId : String) (b64 : String)
    (id : Option String) (now : Nat) (sendThrows : Bool) : List Effect :=
  let msgId := id.getD (toString now)
  let isOnline := s.onlineUsers.any (fun u => u.peerId == peerId)
  let liveEff : List Effect :=
    match lookupDirect s.directConns peerId with
    | some c =>
        if isOnline && c.isOpen then
          [Effect.sendFrame c.connId
             (PeerData.message b64 (some MsgKind.image) (some msgId))]
        else []
    | none => []
  let sentViaP2P := !liveEff.isEmpty && !sendThrows
  let dbEff : List Effect :=
    if !sentViaP2P then
      match s.myPeerId with
      | some myId =>
          [Effect.offlineSend myId peerId
            { id := msgId, fileData := some b64, type := MsgKind.image,
              sender := Sender.me, timestamp := now }]
      | none => []
    else []
  liveEff ++ dbEff

/-- `sendDirectAudio` (lines 506-517): same two-path logic with an audio
payload. -/
def sendDirectAudio (s : HookState) (peerId : String) (b64 : String)
    (id : Option String) (now : Nat) (sendThrows : Bool) : List Effect :=
  let msgId := id.getD (toString now)
  let isOnline := s.onlineUsers.any (fun u => u.peerId == peerId)
  let liveEff : List Effect :=
    match lookupDirect s.directConns peerId with
    | some c =>
        if isOnline && c.isOpen then
          [Effect.sendFrame c.connId
             (PeerData.message b64 (some MsgKind.audio) (some msgId))]
        else []
    | none => []
  let sentViaP2P := !liveEff.isEmpty && !sendThrows
  let dbEff : List Effect :=
    if !sentViaP2P then
      match s.myPeerId with
      | some myId =>
          [Effect.offlineSend myId peerId
            { id := msgId, fileData := some b64, type := MsgKind.audio,
              sender := Sender.me, timestamp := now }]
      | none => []
    else []
  liveEff ++ dbEff

/-- `isPeerConnected` (line 563): membership of the identity in the
`activeDirectConnections` set. -/
def isPeerConnected (s : HookState) (peerId : String) : Bool :=
  s.activeDirectConnections.contains peerId

/-- The events driving the orchestrator: transport callbacks, directory
sync, timers and user actions that touch the matchmaking state.  Oracle
data (times, connect outcomes, delivered rows) is carried in the event. -/
inductive Event
  | peerOpened (id : String)
  | lobbySubscribed (now : Nat)
  | presenceSync (users : List PresenceState)
  | mmTick (outcome : ConnectOutcome) (now : Nat)
  | mmTimeout
  | inboundConn (c : DataConnection) (meta : ConnType) (now : Nat)
  | connOpen (c : DataConnection)
  | connClose (c : DataConnection)
  | connError (c : DataConnection)
  | recvData (c : DataConnection) (d : PeerData) (now : Nat)
  | offlineRow (row : OfflineRow)
  | userConnect (now : Nat)
  | userDisconnect (now : Nat)
  | userSendMessage (text : String) (now : Nat) (rand : String)
deriving DecidableEq

/-- One atomic callback of the single-threaded orchestrator. -/
def step (s : HookState) (e : Event) : HookState × List Effect :=
  match e with
  | Event.peerOpened id => ({ s with myPeerId := some id }, [])
  | Event.lobbySubscribed now =>
      let s₁ := { s with channelReady := true }
      (match s.myPeerId with
       | some pid =>
           (s₁, [Effect.trackPresence pid PresenceStatus.idle now s.userProfile])
       | none => (s₁, []))
  | Event.presenceSync users => ({ s with onlineUsers := users }, [])
  | Event.mmTick outcome now => matchTick s outcome now
  | Event.mmTimeout => (matchTimeout s, [])
  | Event.inboundConn c meta now => setupConnection s c meta now
  | Event.connOpen c => handleConnOpen s c
  | Event.connClose c => (handleConnClose s c, [])
  | Event.connError c => (handleConnError s c, [])
  | Event.recvData c d now => handleIncomingData s d c now
  | Event.offlineRow row => processOfflineMessage s row
  | Event.userConnect now => connectAction s now
  | Event.userDisconnect now => disconnectAction s now
  | Event.userSendMessage text now rand => sendMessage s text now rand

/-- Run a sequence of events from a state, discarding effects. -/
def run (s : HookState) (evs : List Event) : HookState :=
  evs.foldl (fun s e => (step s e).1) s

/-- State of the peer initialisation effect (lines 53-95): which transport
handles exist, which of them had event listeners attached
(`peer.on('open' | 'connection' | 'error')`), and what the hook has
learned from them.  Handles are numbered in creation order; handle `0` is
the peer created by the effect body, which registers all three listeners
on it. -/
structure PeerInitState where
  nextHandle : Nat
  currentPeer : Option Nat
  handlersAttached : List Nat
  myPeerId : Option String
  identityEvents : List String
  handledInbound : List (Nat × Nat)
deriving DecidableEq

/-- The peer initialisation effect after its synchronous body ran: one
peer (handle 0) exists, with the `open`/`connection`/`error` listeners
attached. -/
def peerInit : PeerInitState where
  nextHandle := 1
  currentPeer := some 0
  handlersAttached := [0]
  myPeerId := none
  identityEvents := []
  handledInbound := []

/-- Events the transport provider can fire at the identity layer. -/
inductive PeerEvent
  | opened (peerHandle : Nat) (id : String)
  | errorUnavailableId (peerHandle : Nat)
  | errorTransport (peerHandle : Nat)
  | inbound (peerHandle : Nat) (connId : Nat)
deriving DecidableEq

/-- The identity layer's reaction to a provider event.  A peer only
reacts if a listener was attached to it.  On `unavailable-id` the error
handler (lines 86-90) replaces `peerRef.current` with `new Peer(peerConfig)`;
the source attaches no listeners to this replacement peer, so
`handlersAttached` is unchanged.  `errorTransport` only schedules
`peer.reconnect()` (line 92), changing none of the modelled state. -/
def peerStep (s : PeerInitState) (e : PeerEvent) : PeerInitState :=
  match e with
  | PeerEvent.opened h id =>
      if s.handlersAttached.contains h then
        { s with myPeerId := some id,
                 identityEvents := s.identityEvents ++ [id] }
      else s
  | PeerEvent.errorUnavailableId h =>
      if s.handlersAttached.contains h then
        { s with currentPeer := some s.nextHandle,
                 nextHandle := s.nextHandle + 1 }
      else s
  | PeerEvent.errorTransport _ => s
  | PeerEvent.inbound h connId =>
      if s.handlersAttached.contains h then
        { s with handledInbound := s.handledInbound ++ [(h, connId)] }
      else s

/-- Run a sequence of provider events through the identity layer. -/
def peerRun (s : PeerInitState) (evs : List PeerEvent) : PeerInitState :=
  evs.foldl peerStep s

/-- Does the effect list publish the given presence status
(`channel.track` with that status)? -/
def publishesPresence (effs : List Effect) (st : PresenceStatus) : Bool :=
  effs.any (fun e =>
    match e with
    | Effect.trackPresence _ s _ _ => s == st
    | _ => false)

/-- Does the effect list write to the durable store (`sendOfflineMessage`)? -/
def hasOfflineSend (effs : List Effect) : Bool :=
  effs.any (fun e =>
    match e with
    | Effect.offlineSend _ _ _ => true
    | _ => false)

/-- Does the effect list invoke a live `conn.send`? -/
def hasSendFrame (effs : List Effect) : Bool :=
  effs.any (fun e =>
    match e with
    | Effect.sendFrame _ _ => true
    | _ => false)

/-- How many conversation entries with the given message id the effect
list surfaces (main-conversation appends plus direct-message events). -/
def surfacedCount (effs : List Effect) (mid : String) : Nat :=
  (effs.filter (fun e =>
    match e with
    | Effect.surfaceDirect _ m => m.id == mid
    | Effect.surfaceMainAppend m => m.id == mid
    | _ => false)).length

/-- The ghost invariant of the matchmaking loop: at every event boundary
no outbound attempt is pending (each attempt reaches one of the claim's
terminal outcomes within the callback that started it), and the in-flight
count never exceeded one, even mid-callback. -/
def MMInv (s : HookState) : Prop :=
  s.isMatchmaker = false ∧ s.attemptsInFlight = 0 ∧ s.peakAttemptsInFlight ≤ 1

/-- A sample local profile used by concrete scenarios. -/
def profA : UserProfile := { username := "alice" }

/-- A sample open main connection to `bob`. -/
def mainC : DataConnection := { connId := 7, peer := "bob", isOpen := true }

/-- A sample received text message in the main conversation. -/
def msgHello : Message :=
  { id := "m1", text := some "hello", type := MsgKind.text,
    sender := Sender.stranger, timestamp := 1,
    status := some DeliveryStatus.sent }

/-- A sample second stranger text message. -/
def msgWorld : Message :=
  { id := "m2", text := some "world", type := MsgKind.text,
    sender := Sender.stranger, timestamp := 2,
    status := some DeliveryStatus.sent }

/-- A sample own text message. -/
def msgMine : Message :=
  { id := "m3", text := some "mine", type := MsgKind.text,
    sender := Sender.me, timestamp := 3,
    status := some DeliveryStatus.sent }

/-- A sample stranger image message. -/
def msgPic : Message :=
  { id := "m4", fileData := some "imgdata", type := MsgKind.image,
    sender := Sender.stranger, timestamp := 4,
    status := some DeliveryStatus.sent }

/-- A connected-session state: main connection open to `bob`, four
messages in the conversation, lobby channel live. -/
def connectedState : HookState :=
  { initialState profA with
    status := ChatMode.CONNECTED
    mainConn := some mainC
    partnerPeerId := some "bob"
    myPeerId := some "me"
    channelReady := true
    messages := [msgHello, msgWorld, msgMine, msgPic] }

/-- A direct connection that has been registered but has not reached the
`open` transport state. -/
def directC : DataConnection := { connId := 11, peer := "carol", isOpen := false }

/-- A stale open direct connection to `bobby` (who has left the lobby). -/
def staleBobConn : DataConnection := { connId := 21, peer := "bobby", isOpen := true }

/-- A state where `bobby` has an open connection object in the direct map
but is absent from the presence list, and the local id is not yet
assigned. -/
def C1state : HookState :=
  { initialState profA with directConns := [("bobby", staleBobConn)] }

/-- An open direct connection to `bob2`. -/
def bobDirect : DataConnection := { connId := 2, peer := "bob2", isOpen := true }

/-- A state with an open direct connection to `bob2` and no processed ids. -/
def C2state : HookState :=
  { initialState profA with
    directConns := [("bob2", bobDirect)]
    myPeerId := some "me" }

/-- The durable-store row for the message `m1` from `bob2`. -/
def C2row : OfflineRow :=
  { message_id := "m1", content := some "hi", type := MsgKind.text,
    sender_id := "bob2", created_at := 3 }

/-- A state whose main connection exists but is not open. -/
def C9state : HookState :=
  { initialState profA with
    mainConn := some { connId := 3, peer := "bob", isOpen := false } }

/-- A waiting presence entry with a later timestamp. -/
def u1entry : PresenceState :=
  { peerId := "u1", status := PresenceStatus.waiting, timestamp := 10,
    profile := { username := "u1" } }

/-- The oldest waiting presence entry. -/
def u2entry : PresenceState :=
  { peerId := "u2", status := PresenceStatus.waiting, timestamp := 5,
    profile := { username := "u2" } }

/-- The local user's own waiting entry. -/
def selfEntry : PresenceState :=
  { peerId := "me", status := PresenceStatus.waiting, timestamp := 1,
    profile := profA }

/-- A busy presence entry. -/
def busyEntry : PresenceState :=
  { peerId := "u3", status := PresenceStatus.busy, timestamp := 0,
    profile := { username := "u3" } }

/-- A searching state whose lobby contains two waiters, the local user
and a busy peer. -/
def C4state : HookState :=
  { initialState profA with
    status := ChatMode.SEARCHING
    channelReady := true
    myPeerId := some "me"
    onlineUsers := [u1entry, selfEntry, busyEntry, u2entry] }

theorem mem_insertByTimestamp {u a : PresenceState} :
    ∀ {l : List PresenceState},
      a ∈ insertByTimestamp u l ↔ a = u ∨ a ∈ l := by
  intro l
  induction l with
  | nil => simp [insertByTimestamp]
  | cons v vs ih =>
      simp only [insertByTimestamp]
      split
      · simp [List.mem_cons]
      · simp only [List.mem_cons, ih]
        tauto

theorem mem_sortByTimestamp {a : PresenceState} :
    ∀ {l : List PresenceState}, a ∈ sortByTimestamp l ↔ a ∈ l := by
  intro l
  induction l with
  | nil => simp [sortByTimestamp]
  | cons u us ih => simp [sortByTimestamp, mem_insertByTimestamp, ih]

theorem sortByTimestamp_head_min :
    ∀ (l : List PresenceState) (h : PresenceState) (t : List PresenceState),
      sortByTimestamp l = h :: t → ∀ a ∈ l, h.timestamp ≤ a.timestamp := by
  intro l
  induction l with
  | nil => intro h t e; cases e
  | cons u us ih =>
      intro h t e a ha
      rcases hs : sortByTimestamp us with _ | ⟨v, vs⟩
      · rw [sortByTimestamp, hs] at e
        simp only [insertByTimestamp] at e
        obtain ⟨rfl, rfl⟩ := List.cons.inj e
        rcases List.mem_cons.mp ha with rfl | ha'
        · exact Nat.le_refl _
        · exact absurd ((mem_sortByTimestamp (l := us)).mpr ha')
            (by rw [hs]; exact List.not_mem_nil a)
      · rw [sortByTimestamp, hs] at e
        simp only [insertByTimestamp] at e
        by_cases hc : u.timestamp ≤ v.timestamp
        · rw [if_pos hc] at e
          obtain ⟨rfl, rfl⟩ := List.cons.inj e
          rcases List.mem_cons.mp ha with rfl | ha'
          · exact Nat.le_refl _
          · exact Nat.le_trans hc (ih v vs hs a ha')
        · rw [if_neg hc] at e
          obtain ⟨rfl, rfl⟩ := List.cons.inj e
          rcases List.mem_cons.mp ha with rfl | ha'
          · exact Nat.le_of_not_le hc
          · exact ih v vs hs a ha'

/-- C4: on every matchmaking scan tick in the `Searching` state with no
attempt in flight and no main connection present, the candidate chosen
for the outbound connection is an entry of the presence list with status
`waiting` and identity different from self whose timestamp is minimal
among all such entries (oldest waiter first, ascending sort by
timestamp); if no such entry exists, no connection is initiated and the
state is unchanged. -/
theorem mmTick_picks_oldest_waiter (s : HookState) (pid : String)
    (outcome : ConnectOutcome) (now : Nat)
    (hst : s.status = ChatMode.SEARCHING) (hch : s.channelReady = true)
    (hmm : s.isMatchmaker = false) (hmain : s.mainConn = none)
    (hid : s.myPeerId = some pid) :
    (∀ target rest, candidateWaiters s.onlineUsers pid = target :: rest →
        target ∈ s.onlineUsers ∧ target.status = PresenceStatus.waiting ∧
        target.peerId ≠ pid ∧
        (∀ u ∈ s.onlineUsers, u.status = PresenceStatus.waiting →
            u.peerId ≠ pid → target.timestamp ≤ u.timestamp) ∧
        Effect.connectAttempt target.peerId ConnType.random ∈
          (matchTick s outcome now).2) ∧
    (candidateWaiters s.onlineUsers pid = [] →
        matchTick s outcome now = (s, [])) := by
  constructor
  · intro target rest hw
    have hw' : sortByTimestamp (s.onlineUsers.filter (fun u =>
        u.status == PresenceStatus.waiting && u.peerId != pid))
          = target :: rest := by
      simpa [candidateWaiters] using hw
    have hmemfilter : target ∈ s.onlineUsers.filter (fun u =>
        u.status == PresenceStatus.waiting && u.peerId != pid) :=
      mem_sortByTimestamp.mp (hw' ▸ List.mem_cons_self target rest)
    have hmem := List.mem_filter.mp hmemfilter
    have hstat : target.status = PresenceStatus.waiting := by
      have := (Bool.and_eq_true _ _).mp hmem.2 |>.1
      exact beq_iff_eq.mp this
    have hne : target.peerId ≠ pid := by
      have := (Bool.and_eq_true _ _).mp hmem.2 |>.2
      exact bne_iff_ne.mp this
    refine ⟨hmem.1, hstat, hne, ?_, ?_⟩
    · intro u hu hustat hune
      refine sortByTimestamp_head_min _ target rest hw' u ?_
      exact List.mem_filter.mpr ⟨hu, by
        simp [hustat, hune]⟩
    · rcases outcome with _ | _ | c <;>
        simp [matchTick, hst, hch, hmm, hmain, hid, hw, setupConnection]
  · intro hempty
    simp [matchTick, hst, hch, hmm, hmain, hid, hempty]

/-- Witness for `mmTick_picks_oldest_waiter`: in a concrete lobby with
waiters `u1` (timestamp 10) and `u2` (timestamp 5), the own entry and a
busy peer, the tick connects to `u2`, the oldest waiter. -/
theorem mmTick_picks_oldest_waiter_witness :
    Effect.connectAttempt "u2" ConnType.random ∈
      (matchTick C4state ConnectOutcome.failure 0).2 ∧
    u2entry.timestamp ≤ u1entry.timestamp := by
  have h := mmTick_picks_oldest_waiter C4state "me" ConnectOutcome.failure 0
    rfl rfl rfl rfl rfl
  have hlist : candidateWaiters C4state.onlineUsers "me" = [u2entry, u1entry] := by
    decide
  have h2 := h.1 u2entry [u1entry] hlist
  exact ⟨h2.2.2.2.2, h2.2.2.2.1 u1entry (by decide) (by decide) (by decide)⟩

/-- C9: whenever the main connection is absent or not open, `sendMessage`,
`sendImage` and `sendAudio` are no-ops: the state (in particular the main
conversation list) is unchanged and no effect — neither a transport send
nor a fallback persistence — is produced. -/
theorem sendMessage_noop_when_main_not_open (s : HookState)
    (text b64a b64b : String) (now : Nat) (rand : String)
    (h : match s.mainConn with
         | some c => c.isOpen = false
         | none => True) :
    sendMessage s text now rand = (s, []) ∧
    sendImage s b64a now rand = (s, []) ∧
    sendAudio s b64b now rand = (s, []) := by
  cases hm : s.mainConn with
  | none => simp [sendMessage, sendImage, sendAudio, hm]
  | some c =>
      rw [hm] at h
      simp [sendMessage, sendImage, sendAudio, hm, h]

/-- Witness for `sendMessage_noop_when_main_not_open` at a state whose
main connection exists but is not open. -/
theorem sendMessage_noop_when_main_not_open_witness :
    sendMessage C9state "hi" 7 "r" = (C9state, []) ∧
    sendImage C9state "img" 7 "r" = (C9state, []) ∧
    sendAudio C9state "aud" 7 "r" = (C9state, []) :=
  sendMessage_noop_when_main_not_open C9state "hi" "img" "aud" 7 "r" rfl

/-- C6: receiving a `seen` acknowledgment for message id `mid` on the main
connection sets the delivery status of every message carrying that id to
`seen` while preserving its other fields, and leaves every message with a
different id entirely unchanged (the list keeps its length and order). -/
theorem seen_updates_only_target (s : HookState) (c : DataConnection)
    (mid : String) (now : Nat) (hmain : isMainConn s c = true) :
    ((handleIncomingData s (PeerData.seen mid) c now).1.messages.length
        = s.messages.length) ∧
    ∀ (i : Nat) (hi : i < s.messages.length)
      (hi' : i < (handleIncomingData s (PeerData.seen mid) c now).1.messages.length),
      (((s.messages.get ⟨i, hi⟩).id = mid →
          (handleIncomingData s (PeerData.seen mid) c now).1.messages.get ⟨i, hi'⟩
            = { s.messages.get ⟨i, hi⟩ with status := some DeliveryStatus.seen }) ∧
       ((s.messages.get ⟨i, hi⟩).id ≠ mid →
          (handleIncomingData s (PeerData.seen mid) c now).1.messages.get ⟨i, hi'⟩
            = s.messages.get ⟨i, hi⟩)) := by
  have hmsgs : (handleIncomingData s (PeerData.seen mid) c now).1.messages
      = s.messages.map (fun m =>
          if m.id == mid then { m with status := some DeliveryStatus.seen }
          else m) := by
    simp [handleIncomingData, hmain]
  constructor
  · rw [hmsgs, List.length_map]
  · intro i hi hi'
    constructor
    · intro hid
      simp only [List.get_eq_getElem] at hid
      simp only [hmsgs, List.get_eq_getElem, List.getElem_map]
      simp [hid]
    · intro hid
      simp only [List.get_eq_getElem] at hid
      simp only [hmsgs, List.get_eq_getElem, List.getElem_map]
      simp [hid]

/-- Witness for `seen_updates_only_target`: in the connected sample
session the `seen` frame for `m1` marks only `m1` seen; `m2` at index 1
is untouched. -/
theorem seen_updates_only_target_witness :
    ((handleIncomingData connectedState (PeerData.seen "m1") mainC 9).1.messages.length
        = connectedState.messages.length) ∧
    (handleIncomingData connectedState (PeerData.seen "m1") mainC 9).1.messages.get
        ⟨0, by decide⟩ = { msgHello with status := some DeliveryStatus.seen } ∧
    (handleIncomingData connectedState (PeerData.seen "m1") mainC 9).1.messages.get
        ⟨1, by decide⟩ = msgWorld := by
  have h := seen_updates_only_target connectedState mainC "m1" 9 rfl
  refine ⟨h.1, ?_, ?_⟩
  · exact (h.2 0 (by decide) (by decide)).1 (by decide)
  · exact (h.2 1 (by decide) (by decide)).2 (by decide)

/-- C10: an `edit_message` frame on the main connection with no target id
replaces the text and sets the edited flag on every stranger-sent text
message of the main conversation — not just the most recent one — while
every message sent by the local user and every non-text message keeps its
value (and the list keeps its length and order). -/
theorem edit_message_no_id_edits_all_stranger_texts (s : HookState)
    (c : DataConnection) (payload : String) (now : Nat)
    (hmain : isMainConn s c = true) :
    ((handleIncomingData s (PeerData.edit_message payload none) c now).1.messages.length
        = s.messages.length) ∧
    ∀ (i : Nat) (hi : i < s.messages.length)
      (hi' : i < (handleIncomingData s (PeerData.edit_message payload none) c now).1.messages.length),
      (((s.messages.get ⟨i, hi⟩).sender = Sender.stranger →
        (s.messages.get ⟨i, hi⟩).type = MsgKind.text →
          (handleIncomingData s (PeerData.edit_message payload none) c now).1.messages.get ⟨i, hi'⟩
            = { s.messages.get ⟨i, hi⟩ with text := some payload, isEdited := true }) ∧
       ((s.messages.get ⟨i, hi⟩).sender = Sender.me ∨
        (s.messages.get ⟨i, hi⟩).type ≠ MsgKind.text →
          (handleIncomingData s (PeerData.edit_message payload none) c now).1.messages.get ⟨i, hi'⟩
            = s.messages.get ⟨i, hi⟩)) := by
  have hmsgs : (handleIncomingData s (PeerData.edit_message payload none) c now).1.messages
      = s.messages.map (fun m =>
          if m.sender == Sender.stranger && m.type == MsgKind.text
          then { m with text := some payload, isEdited := true }
          else m) := by
    simp [handleIncomingData, hmain]
  constructor
  · rw [hmsgs, List.length_map]
  · intro i hi hi'
    constructor
    · intro hsend htype
      simp only [List.get_eq_getElem] at hsend htype
      simp only [hmsgs, List.get_eq_getElem, List.getElem_map]
      simp [hsend, htype]
    · intro hcase
      simp only [hmsgs, List.get_eq_getElem, List.getElem_map]
      rcases hcase with hme | htype
      · have hns : s.messages[i].sender ≠ Sender.stranger := by
          simp only [List.get_eq_getElem] at hme
          rw [hme]; intro hcon; cases hcon
        simp [hns]
      · simp only [List.get_eq_getElem] at htype
        simp [htype]

/-- Witness for `edit_message_no_id_edits_all_stranger_texts`: in the
connected sample session (stranger texts `m1`, `m2`, own text `m3`,
stranger image `m4`) both stranger texts are rewritten and the other two
messages survive unchanged. -/
theorem edit_message_no_id_edits_all_stranger_texts_witness :
    (handleIncomingData connectedState (PeerData.edit_message "fixed" none) mainC 9).1.messages.get
        ⟨0, by decide⟩ = { msgHello with text := some "fixed", isEdited := true } ∧
    (handleIncomingData connectedState (PeerData.edit_message "fixed" none) mainC 9).1.messages.get
        ⟨1, by decide⟩ = { msgWorld with text := some "fixed", isEdited := true } ∧
    (handleIncomingData connectedState (PeerData.edit_message "fixed" none) mainC 9).1.messages.get
        ⟨2, by decide⟩ = msgMine ∧
    (handleIncomingData connectedState (PeerData.edit_message "fixed" none) mainC 9).1.messages.get
        ⟨3, by decide⟩ = msgPic := by
  have h := edit_message_no_id_edits_all_stranger_texts connectedState mainC "fixed" 9 rfl
  refine ⟨?_, ?_, ?_, ?_⟩
  · exact (h.2 0 (by decide) (by decide)).1 (by decide) (by decide)
  · exact (h.2 1 (by decide) (by decide)).1 (by decide) (by decide)
  · exact (h.2 2 (by decide) (by decide)).2 (Or.inl (by decide))
  · exact (h.2 3 (by decide) (by decide)).2 (Or.inr (by decide))

/-- C5 counterexample: in the connected sample session, a `disconnect`
frame on the main connection clears the conversation and the partner
identity — but its effect list publishes no presence update at all, so
the local status is not republished as `idle`, contrary to the claim. -/
theorem disconnect_frame_no_idle_republish_cex :
    connectedState.status = ChatMode.CONNECTED ∧
    isMainConn connectedState mainC = true ∧
    (handleIncomingData connectedState PeerData.disconnect mainC 9).1.messages = [] ∧
    (handleIncomingData connectedState PeerData.disconnect mainC 9).1.partnerPeerId = none ∧
    publishesPresence
      (handleIncomingData connectedState PeerData.disconnect mainC 9).2
      PresenceStatus.idle = false :=
  ⟨rfl, rfl, rfl, rfl, rfl⟩

/-- C5 amended: receiving a `disconnect` frame on the main connection
while `Connected` clears the conversation history, clears the partner
identity, drops the main slot and moves to `Disconnected` — but it does
not republish the local presence status (`idle` is published by
`cleanupMain`, which this handler does not call). -/
theorem disconnect_frame_clears_without_idle (s : HookState)
    (c : DataConnection) (now : Nat)
    (hst : s.status = ChatMode.CONNECTED) (hmain : isMainConn s c = true) :
    (handleIncomingData s PeerData.disconnect c now).1.status
        = ChatMode.DISCONNECTED ∧
    (handleIncomingData s PeerData.disconnect c now).1.messages = [] ∧
    (handleIncomingData s PeerData.disconnect c now).1.partnerPeerId = none ∧
    (handleIncomingData s PeerData.disconnect c now).1.mainConn = none ∧
    publishesPresence (handleIncomingData s PeerData.disconnect c now).2
      PresenceStatus.idle = false := by
  refine ⟨?_, ?_, ?_, ?_, ?_⟩ <;>
    · simp only [handleIncomingData, hmain]
      cases s.mainConn <;> simp [publishesPresence]

/-- Witness for `disconnect_frame_clears_without_idle` at the connected
sample session. -/
theorem disconnect_frame_clears_without_idle_witness :
    (handleIncomingData connectedState PeerData.disconnect mainC 9).1.status
        = ChatMode.DISCONNECTED ∧
    (handleIncomingData connectedState PeerData.disconnect mainC 9).1.mainConn
        = none :=
  have h := disconnect_frame_clears_without_idle connectedState mainC 9 rfl rfl
  ⟨h.1, h.2.2.2.1⟩

/-- C8 counterexample: registering a direct connection that has not
reached the `open` state already makes `isPeerConnected` report `true`
for that identity, contrary to the claim that the query checks the open
state. -/
theorem isPeerConnected_true_before_open_cex :
    directC.isOpen = false ∧
    isPeerConnected
      (setupConnection (initialState profA) directC ConnType.direct 0).1
      "carol" = true ∧
    lookupDirect
      (setupConnection (initialState profA) directC ConnType.direct 0).1.directConns
      "carol" = some directC :=
  ⟨rfl, rfl, rfl⟩

/-- C8 amended: `isPeerConnected` reports membership of the identity in
the active-direct set, which is populated at registration time: right
after `setupConnection` with direct metadata the query is `true` for the
connection's peer — whatever the transport state of the connection — and
the connection is registered in the direct map. -/
theorem isPeerConnected_tracks_registration (s : HookState)
    (c : DataConnection) (now : Nat) :
    isPeerConnected (setupConnection s c ConnType.direct now).1 c.peer = true ∧
    lookupDirect (setupConnection s c ConnType.direct now).1.directConns c.peer
      = some c := by
  constructor
  · simp only [setupConnection, isPeerConnected, addActive]
    by_cases h : c.peer ∈ s.activeDirectConnections
    · simp [h]
    · simp [h]
  · simp [setupConnection, lookupDirect, insertDirect]

/-- C1 counterexample: `bobby` is absent from the presence list while a
stale open connection object for him sits in the direct map; with no
local id assigned yet (`myPeerIdRef.current` still `null`) the call
produces no effect at all — in particular the message is not persisted to
the durable store, contrary to the claim that persistence always
happens. -/
theorem sendDirectMessage_offline_not_persisted_cex :
    C1state.onlineUsers.any (fun u => u.peerId == "bobby") = false ∧
    lookupDirect C1state.directConns "bobby" = some staleBobConn ∧
    staleBobConn.isOpen = true ∧
    sendDirectMessage C1state "bobby" "hi" none 5 false = [] :=
  ⟨rfl, rfl, rfl, rfl⟩

/-- C1 amended: for every call to `sendDirectMessage` (and the image and
audio variants) whose target is absent from the presence list, the live
transport's `send` is never invoked — even if an open direct connection
object exists — and, provided the local identity has been assigned, the
message is persisted to the durable store via the offline-send path. -/
theorem sendDirect_offline_never_live (s : HookState)
    (peerId text b64a b64b : String) (id : Option String) (now : Nat)
    (st : Bool)
    (hoff : s.onlineUsers.any (fun u => u.peerId == peerId) = false) :
    (hasSendFrame (sendDirectMessage s peerId text id now st) = false ∧
     (s.myPeerId.isSome = true →
        hasOfflineSend (sendDirectMessage s peerId text id now st) = true)) ∧
    (hasSendFrame (sendDirectImage s peerId b64a id now st) = false ∧
     (s.myPeerId.isSome = true →
        hasOfflineSend (sendDirectImage s peerId b64a id now st) = true)) ∧
    (hasSendFrame (sendDirectAudio s peerId b64b id now st) = false ∧
     (s.myPeerId.isSome = true →
        hasOfflineSend (sendDirectAudio s peerId b64b id now st) = true)) := by
  refine ⟨⟨?_, ?_⟩, ⟨?_, ?_⟩, ⟨?_, ?_⟩⟩ <;>
    cases hl : lookupDirect s.directConns peerId <;>
    cases hid : s.myPeerId <;>
    simp [sendDirectMessage, sendDirectImage, sendDirectAudio,
      hasSendFrame, hasOfflineSend, hoff, hl, hid]

/-- Witness for `sendDirect_offline_never_live`: the connected sample
session has a local id and `zoe` is not in its lobby, so all three direct
sends fall back to the durable store without touching the transport. -/
theorem sendDirect_offline_never_live_witness :
    hasSendFrame (sendDirectMessage connectedState "zoe" "hi" none 5 false)
      = false ∧
    hasOfflineSend (sendDirectMessage connectedState "zoe" "hi" none 5 false)
      = true ∧
    hasOfflineSend (sendDirectImage connectedState "zoe" "img" none 5 false)
      = true ∧
    hasOfflineSend (sendDirectAudio connectedState "zoe" "aud" none 5 false)
      = true := by
  have h := sendDirect_offline_never_live connectedState "zoe" "hi" "img" "aud"
    none 5 false rfl
  exact ⟨h.1.1, h.1.2 rfl, h.2.1.2 rfl, h.2.2.2 rfl⟩

/-- C2 counterexample: the message `m1` from `bob2` is delivered once over
the live transport (the direct connection's `data` event) and once via
the durable store; two conversation entries are surfaced, because the
live path neither consults nor updates the processed-id set. -/
theorem duplicate_live_store_delivery_cex :
    surfacedCount
      ((handleIncomingData C2state
          (PeerData.message "hi" (some MsgKind.text) (some "m1")) bobDirect 4).2 ++
       (processOfflineMessage
          (handleIncomingData C2state
            (PeerData.message "hi" (some MsgKind.text) (some "m1")) bobDirect 4).1
          C2row).2)
      "m1" = 2 :=
  rfl

/-- C2 amended: the processed-id dedup applies only between the two
durable-store delivery paths (poll and realtime insert subscription):
delivering a store row twice through `processOfflineMessage` surfaces
exactly one conversation entry, the second delivery being dropped by the
processed-id check; the live transport path never records ids in the
processed set, so it is not deduplicated against the store path. -/
theorem store_path_dedup (s : HookState) (row : OfflineRow)
    (hnew : s.processedMessageIds.contains row.message_id = false) :
    surfacedCount (processOfflineMessage s row).2 row.message_id = 1 ∧
    processOfflineMessage (processOfflineMessage s row).1 row
      = ((processOfflineMessage s row).1, []) ∧
    ∀ (d : PeerData) (c : DataConnection) (now : Nat),
      (handleIncomingData s d c now).1.processedMessageIds
        = s.processedMessageIds := by
  have hnew' : row.message_id ∉ s.processedMessageIds := by simpa using hnew
  refine ⟨?_, ?_, ?_⟩
  · simp [processOfflineMessage, hnew', surfacedCount]
  · simp [processOfflineMessage, hnew']
  · intro d c now
    cases d <;> simp only [handleIncomingData, saveFriend] <;>
      (try split) <;> (try split) <;> simp

/-- Witness for `store_path_dedup` at the sample state and store row. -/
theorem store_path_dedup_witness :
    surfacedCount (processOfflineMessage C2state C2row).2 C2row.message_id = 1 ∧
    processOfflineMessage (processOfflineMessage C2state C2row).1 C2row
      = ((processOfflineMessage C2state C2row).1, []) :=
  have h := store_path_dedup C2state C2row rfl
  ⟨h.1, h.2.1⟩

theorem handleIncomingData_preserves_mm (s : HookState) (d : PeerData)
    (c : DataConnection) (now : Nat) :
    (handleIncomingData s d c now).1.isMatchmaker = s.isMatchmaker ∧
    (handleIncomingData s d c now).1.attemptsInFlight = s.attemptsInFlight ∧
    (handleIncomingData s d c now).1.peakAttemptsInFlight
      = s.peakAttemptsInFlight := by
  cases d <;> simp only [handleIncomingData, saveFriend] <;>
    (try split) <;> (try split) <;> simp

theorem MMInv_step (s : HookState) (e : Event) (h : MMInv s) :
    MMInv (step s e).1 := by
  obtain ⟨hf, ha, hp⟩ := h
  cases e with
  | peerOpened id => exact ⟨hf, ha, hp⟩
  | lobbySubscribed now =>
      simp only [step]
      cases s.myPeerId <;> exact ⟨hf, ha, hp⟩
  | presenceSync users => exact ⟨hf, ha, hp⟩
  | mmTick outcome now =>
      simp only [step, matchTick]
      split
      · exact ⟨hf, ha, hp⟩
      · cases hid : s.myPeerId with
        | none => exact ⟨hf, ha, hp⟩
        | some pid =>
            cases hw : candidateWaiters s.onlineUsers pid with
            | nil => simp only [hw]; exact ⟨hf, ha, hp⟩
            | cons target rest =>
                simp only [hw]
                cases outcome <;>
                  refine ⟨?_, ?_, ?_⟩ <;>
                  simp [clearInFlight, setupConnection, ha] <;>
                  exact hp
  | mmTimeout =>
      have hmt : matchTimeout s = s := by simp [matchTimeout, hf]
      simp only [step, hmt]
      exact ⟨hf, ha, hp⟩
  | inboundConn c meta now =>
      cases meta <;> simp only [step, setupConnection] <;>
        refine ⟨?_, ?_, ?_⟩ <;> simp [clearInFlight, hf, ha, hp]
  | connOpen c =>
      simp only [step, handleConnOpen]
      split <;> exact ⟨hf, ha, hp⟩
  | connClose c =>
      simp only [step, handleConnClose]
      split <;> exact ⟨hf, ha, hp⟩
  | connError c =>
      simp only [step, handleConnError]
      split
      · refine ⟨?_, ?_, ?_⟩ <;> simp [clearInFlight, hf, ha, hp]
      · exact ⟨hf, ha, hp⟩
  | recvData c d now =>
      obtain ⟨h1, h2, h3⟩ := handleIncomingData_preserves_mm s d c now
      simp only [step]
      exact ⟨by rw [h1]; exact hf, by rw [h2]; exact ha, by rw [h3]; exact hp⟩
  | offlineRow row =>
      simp only [step, processOfflineMessage]
      split <;> exact ⟨hf, ha, hp⟩
  | userConnect now =>
      simp only [step, connectAction]
      cases s.myPeerId with
      | none => exact ⟨hf, ha, hp⟩
      | some pid =>
          by_cases hcr : s.channelReady = true <;>
            simp only [hcr, if_true, if_false, reduceIte] <;>
            exact ⟨hf, ha, hp⟩
  | userDisconnect now =>
      simp only [step, disconnectAction, cleanupMain]
      refine ⟨?_, ?_, ?_⟩ <;> simp [clearInFlight, hf, ha, hp]
  | userSendMessage text now rand =>
      simp only [step, sendMessage]
      cases s.mainConn with
      | none => exact ⟨hf, ha, hp⟩
      | some c =>
          by_cases hc : c.isOpen = true <;>
            simp only [hc, if_true, if_false, reduceIte] <;>
            exact ⟨hf, ha, hp⟩

theorem MMInv_run (s : HookState) (evs : List Event) (h : MMInv s) :
    MMInv (run s evs) := by
  induction evs generalizing s with
  | nil => exact h
  | cons e es ih => exact ih (step s e).1 (MMInv_step s e h)

/-- C3: along every sequence of orchestrator events (presence syncs, scan
ticks with arbitrary connect outcomes, timers, transport callbacks, user
actions) the Matchmaker never has more than one outbound matchmaking
attempt in flight: the ghost count of begun-but-not-terminated attempts
never exceeds one, even at its mid-callback peak.  The in-flight flag is
set (and the ghost count incremented) in `matchTick` right before
`connect`, and decremented exactly where the source clears the flag — the
claim's terminal outcomes: installation as the main slot
(`setupConnection` with random metadata), a falsy `connect` return, a
`connect` throw, the 5-second attempt timeout finding the main slot
absent or not open, a main-connection error while searching, and
`cleanupMain`.  As every attempt reaches a terminal outcome inside its
own callback, the flag is moreover `false` at every event boundary. -/
theorem matchmaker_single_attempt_in_flight (p : UserProfile)
    (evs : List Event) :
    (run (initialState p) evs).attemptsInFlight ≤ 1 ∧
    (run (initialState p) evs).peakAttemptsInFlight ≤ 1 ∧
    (run (initialState p) evs).isMatchmaker = false := by
  have h := MMInv_run (initialState p) evs ⟨rfl, rfl, Nat.zero_le 1⟩
  exact ⟨by rw [h.2.1]; exact Nat.zero_le 1, h.2.2, h.1⟩

/-- C7: evaluation of the identity layer at the failing input.  After the
preferred id is rejected (`unavailable-id` on peer 0), the error handler
creates a replacement peer (handle 1) but attaches no listeners to it;
when the provider then assigns the replacement a random identity and
delivers an inbound connection, the hook never learns the new identity
(no identity event fires, `myPeerId` stays `null`) and the inbound
connection is not handled.  The last conjunct shows, by contrast, that
the original peer's events were delivered. -/
theorem idtaken_fallback_is_inert :
    (peerRun peerInit [PeerEvent.errorUnavailableId 0,
        PeerEvent.opened 1 "rand-42", PeerEvent.inbound 1 5]).currentPeer
      = some 1 ∧
    (peerRun peerInit [PeerEvent.errorUnavailableId 0,
        PeerEvent.opened 1 "rand-42", PeerEvent.inbound 1 5]).myPeerId
      = none ∧
    (peerRun peerInit [PeerEvent.errorUnavailableId 0,
        PeerEvent.opened 1 "rand-42", PeerEvent.inbound 1 5]).identityEvents
      = [] ∧
    (peerRun peerInit [PeerEvent.errorUnavailableId 0,
        PeerEvent.opened 1 "rand-42", PeerEvent.inbound 1 5]).handledInbound
      = [] ∧
    (peerRun peerInit [PeerEvent.opened 0 "alice-id"]).myPeerId
      = some "alice-id" :=
  ⟨rfl, rfl, rfl, rfl, rfl⟩

end HumanChat
